import Mathlib

/-!
A shallow embedding of the block-verification core of the repository
(`beacon_node/beacon_chain/src/block_verification.rs`), together with
theorems settling the specification claims about it.

Machine integers (`Slot`, `Epoch`, validator indices, hashes) are modelled
as `Nat`; slot arithmetic in the source uses `saturating_sub`, modelled by
truncated `Nat` subtraction.  Chain-level mutable state (observation caches,
the pre-finalization-rejection record) is threaded explicitly, and externally
visible effects (staging a temporary state in the store, loading a parent
snapshot, forwarding a header to the slasher, ...) are recorded in an
explicit action trace.
-/

abbrev Slot := Nat
abbrev Epoch := Nat
abbrev Hash256 := Nat
abbrev ValidatorIndex := Nat

/-- SLOTS_PER_EPOCH of the mainnet `EthSpec` (`E::slots_per_epoch()`). -/
def SLOTS_PER_EPOCH : Nat := 32

/-- MAXIMUM_BLOCK_SLOT_NUMBER from `block_verification.rs` line 129. -/
def MAXIMUM_BLOCK_SLOT_NUMBER : Nat := 4294967296

/-- Epoch of a slot: `Slot::epoch`, i.e. `slot / slots_per_epoch`. -/
def slotToEpoch (s : Slot) : Epoch := s / SLOTS_PER_EPOCH

/-- First slot of an epoch: `Epoch::start_slot`. -/
def epochStartSlot (e : Epoch) : Slot := e * SLOTS_PER_EPOCH

/-- Model of `SignedBeaconBlockHeader`.  The abstract `signature` field is
interpreted symbolically: a signature is valid iff it equals the proposer's
registered public key (see `verify_header_signature`). -/
structure SignedBlockHeader where
  slot : Slot
  proposer_index : ValidatorIndex
  parent_root : Hash256
  state_root : Hash256
  signature : Nat
deriving Repr, DecidableEq

/-- Model of a `SignedBeaconBlock` with the fields the verification pipeline
reads.  `body` abstracts the block body contents consumed by per-block
processing; `procOk` abstracts whether the spec state-transition function
accepts the body (the full `per_block_processing` is outside the reviewed
sources). -/
structure Block where
  slot : Slot
  proposer_index : ValidatorIndex
  parent_root : Hash256
  state_root : Hash256
  signature : Nat
  body : Nat
  procOk : Bool
deriving Repr, DecidableEq

/-- Header of a block (`SignedBeaconBlock::signed_block_header`). -/
def Block.header (b : Block) : SignedBlockHeader :=
  { slot := b.slot
    proposer_index := b.proposer_index
    parent_root := b.parent_root
    state_root := b.state_root
    signature := b.signature }

/-- Model of `BeaconState`.  `validators` and `data` abstract all state
content other than the slot; `cachesBuilt` is the set of epochs whose
committee caches have been built (the committee caches are the only part of
the state that `cheap_state_advance_to_obtain_committees` may touch in
place). -/
structure BState where
  slot : Slot
  validators : Nat
  data : Nat
  cachesBuilt : List Epoch
deriving Repr, DecidableEq

/-- Current epoch of a state (`BeaconState::current_epoch`). -/
def BState.currentEpoch (s : BState) : Epoch := slotToEpoch s.slot

/-- Tree hash root of a state (`BeaconState::update_tree_hash_cache`).  The
root covers the hashed content (slot, validators, data) and not the
transient committee caches; `Nat.pair` keeps it injective on that content. -/
def stateRoot (s : BState) : Hash256 :=
  Nat.pair s.slot (Nat.pair s.validators s.data)

/-- Insert an epoch into the built-caches list (idempotent). -/
def insertEpoch (e : Epoch) (l : List Epoch) : List Epoch :=
  if e ∈ l then l else e :: l

/-- Modelled from the spec: `build_committee_cache(RelativeEpoch::Previous)`
followed by `build_committee_cache(RelativeEpoch::Current)` (the committee
cache builder lives in the `types` crate, outside the reviewed sources).
Building caches touches only the `cachesBuilt` field. -/
def build_committee_caches (s : BState) : BState :=
  { s with cachesBuilt :=
      insertEpoch s.currentEpoch (insertEpoch (s.currentEpoch - 1) s.cachesBuilt) }

/-- Modelled from the spec: `partial_state_advance` (in the
`state_processing` crate, outside the reviewed sources) advances the state's
slot to `target_slot`, "skipping state-root bookkeeping", leaving the rest
of the state content unchanged. -/
def partial_state_advance (s : BState) (_state_root_opt : Option Hash256)
    (target_slot : Slot) : BState :=
  { s with slot := target_slot }

/-- Modelled from the spec: `per_slot_processing` (in the `state_processing`
crate, outside the reviewed sources) advances the state by exactly one slot,
given the state root of the pre-state. -/
def per_slot_processing (s : BState) (_state_root : Option Hash256) : BState :=
  { s with slot := s.slot + 1 }

/-- Modelled from the spec: `per_block_processing` (in the
`state_processing` crate, outside the reviewed sources) applies the block
body to the state at the block's slot, failing iff the spec state-transition
function rejects the block (abstracted by `Block.procOk`). -/
def per_block_processing (s : BState) (b : Block) : Except Unit BState :=
  if b.procOk then Except.ok { s with data := Nat.pair s.data b.body }
  else Except.error ()

/-- Internal (`BeaconChainError`) errors reachable in the modelled fragment. -/
inductive ChainErr where
  | BadPreState (parent_root : Hash256) (parent_slot : Slot) (block_root : Hash256)
      (block_slot : Slot) (state_slot : Slot)
deriving Repr, DecidableEq

/-- The `BlockError` variants reachable in the modelled fragment of
`block_verification.rs`. -/
inductive BlockErr where
  | ParentUnknown
  | FutureSlot (present_slot : Slot) (block_slot : Slot)
  | StateRootMismatch (block : Hash256) (local_root : Hash256)
  | GenesisBlock
  | WouldRevertFinalizedSlot (block_slot : Slot) (finalized_slot : Slot)
  | BlockIsAlreadyKnown (root : Hash256)
  | BlockSlotLimitReached
  | ProposalSignatureInvalid
  | UnknownValidator (idx : ValidatorIndex)
  | InvalidSignature
  | BlockIsNotLaterThanParent (block_slot : Slot) (parent_slot : Slot)
  | PerBlockProcessingError
  | BeaconChainError (e : ChainErr)
  | WeakSubjectivityConflict
  | ParentExecutionPayloadInvalid (parent_root : Hash256)
  | Slashable
  | IncorrectBlockProposer (block : ValidatorIndex) (local_shuffling : ValidatorIndex)
deriving Repr, DecidableEq

/-- Externally visible effects of the verification pipeline, recorded as an
explicit trace. -/
inductive Act where
  | recordPreFinalizationRejection (root : Hash256)
  | loadParentSnapshot (parent_root : Hash256)
  | stageTemporaryState (state_root : Hash256)
  | verifySignatureBatch
  | spawnPayloadVerification
  | slasherAcceptHeader (h : SignedBlockHeader)
deriving Repr, DecidableEq

/-- Fork-choice view of one block (`ProtoBlock`): we track only whether its
`execution_status.is_invalid()`. -/
structure ProtoBlockInfo where
  executionInvalid : Bool
deriving Repr, DecidableEq

/-- Parent snapshot (`PreProcessingSnapshot`): the parent block, its root,
the pre-state (possibly advanced past the parent's slot) and the optional
known state root of the pre-state. -/
structure PreProcessingSnapshot where
  beacon_block : Block
  beacon_block_root : Hash256
  pre_state : BState
  beacon_state_root : Option Hash256
deriving Repr, DecidableEq

/-- The chain handle (`BeaconChain`), restricted to the collaborator state
the modelled fragment reads or writes.  `forkChoice` maps block roots to
their fork-choice info; `pubkeys` maps validator indices to (symbolic)
public keys; `observedSlashable` and `observedBlockProducers` are the
equivocation-observation sets; `hotStates` lists state roots already present
in the hot database; `preFinalizationRejected` is the bookkeeping record fed
by `pre_finalization_block_rejected`. -/
structure Chain where
  currentSlot : Slot
  anchorSlot : Option Slot
  finalizedEpoch : Epoch
  forkChoice : List (Hash256 × ProtoBlockInfo)
  pubkeys : List (ValidatorIndex × Nat)
  observedSlashable : List (ValidatorIndex × Slot × Hash256)
  observedBlockProducers : List (ValidatorIndex × Slot × Hash256)
  hotStates : List Hash256
  preFinalizationRejected : List Hash256
  slasherEnabled : Bool
deriving Repr, DecidableEq

/-- Fork choice `contains_block`. -/
def Chain.containsBlock (c : Chain) (root : Hash256) : Bool :=
  (c.forkChoice.lookup root).isSome

/-- Fork choice `get_block`. -/
def Chain.getBlock (c : Chain) (root : Hash256) : Option ProtoBlockInfo :=
  c.forkChoice.lookup root

/-- Finalized slot derived from fork choice's finalized checkpoint:
`finalized_checkpoint().epoch.start_slot(slots_per_epoch)`. -/
def Chain.finalizedSlot (c : Chain) : Slot := epochStartSlot c.finalizedEpoch

/-- Modelled from the spec: `BeaconChain::pre_finalization_block_rejected`
(outside the reviewed sources) records the block root as pre-finalization
rejected, for bookkeeping; recording an already-recorded root is a no-op. -/
def pre_finalization_block_rejected (c : Chain) (root : Hash256) : Chain :=
  if root ∈ c.preFinalizationRejected then c
  else { c with preFinalizationRejected := root :: c.preFinalizationRejected }

/-- `check_block_against_anchor_slot` (lines 1703-1713): `Ok(())` iff the
block's slot is strictly greater than the configured anchor slot, if any. -/
def check_block_against_anchor_slot (block : Block) (chain : Chain) :
    Except BlockErr Unit :=
  match chain.anchorSlot with
  | some anchor_slot =>
      if block.slot ≤ anchor_slot then Except.error BlockErr.WeakSubjectivityConflict
      else Except.ok ()
  | none => Except.ok ()

/-- `check_block_against_finalized_slot` (lines 1719-1744): reject with
`WouldRevertFinalizedSlot` and record the root as pre-finalization rejected
when the block's slot is not strictly beyond the finalized slot.  Returns
the result, the updated chain, and the trace of effects. -/
def check_block_against_finalized_slot (block : Block) (block_root : Hash256)
    (chain : Chain) : Except BlockErr Unit × Chain × List Act :=
  let finalized_slot := chain.finalizedSlot
  if block.slot ≤ finalized_slot then
    (Except.error (BlockErr.WouldRevertFinalizedSlot block.slot finalized_slot),
     pre_finalization_block_rejected chain block_root,
     [Act.recordPreFinalizationRejection block_root])
  else
    (Except.ok (), chain, [])

/-- `check_block_relevancy` (lines 1791-1831): the cheap relevancy gate.
Checks, in source order: future slot, genesis slot, slot ceiling, finalized
slot (with its bookkeeping side effect), and already-known-to-fork-choice;
accepts with the block root otherwise. -/
def check_block_relevancy (signed_block : Block) (block_root : Hash256)
    (chain : Chain) : Except BlockErr Hash256 × Chain × List Act :=
  if signed_block.slot > chain.currentSlot then
    (Except.error (BlockErr.FutureSlot chain.currentSlot signed_block.slot), chain, [])
  else if signed_block.slot = 0 then
    (Except.error BlockErr.GenesisBlock, chain, [])
  else if signed_block.slot ≥ MAXIMUM_BLOCK_SLOT_NUMBER then
    (Except.error BlockErr.BlockSlotLimitReached, chain, [])
  else
    match check_block_against_finalized_slot signed_block block_root chain with
    | (Except.error e, c, tr) => (Except.error e, c, tr)
    | (Except.ok _, c, tr) =>
        if c.containsBlock block_root then
          (Except.error (BlockErr.BlockIsAlreadyKnown block_root), c, tr)
        else
          (Except.ok block_root, c, tr)

/-- Result of `ObservedBlockProducers::observe_proposal`. -/
inductive SeenBlock where
  | duplicate
  | slashable
  | uniqueNonSlashable
deriving Repr, DecidableEq

/-- Modelled from the spec: `ObservedBlockProducers::observe_proposal`
(outside the reviewed sources) is an atomic check-then-insert on the
(proposer, slot) -> block-root record: an exact repeat of an observed
(proposer, slot, root) is `duplicate`; a second distinct root for an
observed (proposer, slot) is `slashable`; a never-observed (proposer, slot)
is `uniqueNonSlashable`.  The proposal is appended to the record unless it
is an exact repeat. -/
def observe_proposal (entries : List (ValidatorIndex × Slot × Hash256))
    (block_root : Hash256) (proposer : ValidatorIndex) (slot : Slot) :
    SeenBlock × List (ValidatorIndex × Slot × Hash256) :=
  if (proposer, slot, block_root) ∈ entries then
    (SeenBlock.duplicate, entries)
  else if entries.any (fun e => e.1 == proposer && e.2.1 == slot) then
    (SeenBlock.slashable, (proposer, slot, block_root) :: entries)
  else
    (SeenBlock.uniqueNonSlashable, (proposer, slot, block_root) :: entries)

/-- Modelled from the spec: `ObservedSlashable::observe_slashable` (outside
the reviewed sources) records the (proposer, slot, root) triple
unconditionally, for the slasher's benefit. -/
def observe_slashable (entries : List (ValidatorIndex × Slot × Hash256))
    (proposer : ValidatorIndex) (slot : Slot) (block_root : Hash256) :
    List (ValidatorIndex × Slot × Hash256) :=
  if (proposer, slot, block_root) ∈ entries then entries
  else (proposer, slot, block_root) :: entries

/-- The equivocation-observation step of `GossipVerifiedBlock::
new_without_slasher_checks` (lines 968-989): record the proposal in
`observed_slashable`, then atomically check-and-insert it in
`observed_block_producers`, rejecting `Slashable` on a distinct repeat
proposal and `BlockIsAlreadyKnown` on an exact repeat. -/
def gossip_observe_proposal (chain : Chain) (block : Block)
    (block_root : Hash256) : Except BlockErr Unit × Chain :=
  let c1 := { chain with observedSlashable :=
      (observe_slashable chain.observedSlashable block.proposer_index block.slot block_root) }
  match observe_proposal c1.observedBlockProducers block_root
      block.proposer_index block.slot with
  | (SeenBlock.slashable, obs) =>
      (Except.error BlockErr.Slashable, { c1 with observedBlockProducers := obs })
  | (SeenBlock.duplicate, obs) =>
      (Except.error (BlockErr.BlockIsAlreadyKnown block_root),
       { c1 with observedBlockProducers := obs })
  | (SeenBlock.uniqueNonSlashable, obs) =>
      (Except.ok (), { c1 with observedBlockProducers := obs })

/-- `BlockSlashInfo` (lines 503-512). -/
inductive BlockSlashInfo where
  | SignatureNotChecked (h : SignedBlockHeader) (e : BlockErr)
  | SignatureInvalid (e : BlockErr)
  | SignatureValid (h : SignedBlockHeader) (e : BlockErr)
deriving Repr, DecidableEq

/-- `BlockSlashInfo::from_early_error_block` (lines 514-523): the
`ProposalSignatureInvalid` error classifies as `SignatureInvalid`
(discarding the header); every other error classifies as
`SignatureNotChecked` carrying the header. -/
def from_early_error_block (header : SignedBlockHeader) (e : BlockErr) :
    BlockSlashInfo :=
  match e with
  | BlockErr.ProposalSignatureInvalid => BlockSlashInfo.SignatureInvalid e
  | _ => BlockSlashInfo.SignatureNotChecked header e

/-- `verify_header_signature` (lines 2137-2157): look the proposer up in the
validator-pubkey cache (`UnknownValidator` if absent) and check the header's
proposer signature against that key (symbolically: signature = key). -/
def verify_header_signature (chain : Chain) (header : SignedBlockHeader) :
    Except BlockErr Unit :=
  match chain.pubkeys.lookup header.proposer_index with
  | none => Except.error (BlockErr.UnknownValidator header.proposer_index)
  | some pk =>
      if header.signature = pk then Except.ok ()
      else Except.error BlockErr.ProposalSignatureInvalid

/-- `process_block_slash_info` (lines 553-579): with a slasher configured,
forward the header iff the signature was already confirmed valid, or was
not checked and the independent header-only signature check succeeds; the
original error is always returned.  With no slasher this is a no-op.
Forwarding is recorded as a `slasherAcceptHeader` trace action. -/
def process_block_slash_info (chain : Chain) (slash_info : BlockSlashInfo) :
    BlockErr × List Act :=
  if chain.slasherEnabled then
    match slash_info with
    | BlockSlashInfo.SignatureNotChecked header e =>
        match verify_header_signature chain header with
        | Except.ok _ => (e, [Act.slasherAcceptHeader header])
        | Except.error _ => (e, [])
    | BlockSlashInfo.SignatureInvalid e => (e, [])
    | BlockSlashInfo.SignatureValid header e => (e, [Act.slasherAcceptHeader header])
  else
    match slash_info with
    | BlockSlashInfo.SignatureNotChecked _ e => (e, [])
    | BlockSlashInfo.SignatureInvalid e => (e, [])
    | BlockSlashInfo.SignatureValid _ e => (e, [])

/-- Whether a state is a `Cow::Borrowed` view of the caller's state or an
`Cow::Owned` clone (`std::borrow::Cow`). -/
inductive StateCow where
  | borrowed (s : BState)
  | owned (s : BState)
deriving Repr, DecidableEq

/-- `cheap_state_advance_to_obtain_committees` (lines 2059-2090).  The pure
model returns the `Cow` result (or error) together with the caller-visible
state after the call (the source takes `&mut state`: in the borrowed case
the committee caches are built in place, otherwise the caller's state is
untouched). -/
def cheap_state_advance_to_obtain_committees (state : BState)
    (state_root_opt : Option Hash256) (block_slot : Slot) :
    Except BlockErr StateCow × BState :=
  let block_epoch := slotToEpoch block_slot
  if state.currentEpoch = block_epoch then
    let s := build_committee_caches state
    (Except.ok (StateCow.borrowed s), s)
  else if state.slot > block_slot then
    (Except.error (BlockErr.BlockIsNotLaterThanParent block_slot state.slot), state)
  else
    let cloned := state
    let target_slot := epochStartSlot block_epoch
    let advanced := partial_state_advance cloned state_root_opt target_slot
    (Except.ok (StateCow.owned (build_committee_caches advanced)), state)

/-- `load_parent` (lines 1882-1988), restricted to the structure the claims
need: fail with `ParentUnknown` when fork choice does not contain the
parent root; otherwise produce the snapshot held by the chain's store for
that root (the store lookup itself is a collaborator).  Loading is recorded
as a `loadParentSnapshot` trace action. -/
def load_parent (chain : Chain)
    (snapshots : List (Hash256 × PreProcessingSnapshot)) (block : Block) :
    Except BlockErr PreProcessingSnapshot × List Act :=
  if ¬ chain.containsBlock block.parent_root then
    (Except.error BlockErr.ParentUnknown, [])
  else
    match snapshots.lookup block.parent_root with
    | none => (Except.error BlockErr.ParentUnknown,
               [Act.loadParentSnapshot block.parent_root])
    | some snapshot => (Except.ok snapshot,
                        [Act.loadParentSnapshot block.parent_root])

/-- Output of the catch-up loop: the advanced state, the accumulated
`confirmed_state_roots`, and the trace of store effects. -/
structure CatchupOut where
  state : BState
  confirmed : List Hash256
  trace : List Act
deriving Repr, DecidableEq

/-- The catch-up loop of `ExecutionPendingBlock::
from_signature_verified_components` (lines 1472-1533), with the iteration
count (`distance`) made explicit.  Per skipped slot: if the pre-state still
sits at the parent block's slot, its root is read off the parent block (no
store write); otherwise this is a newly reached state, whose root is
computed, staged as temporary in the store unless a state with that root
already exists (`hot`), and appended to `confirmed_state_roots`; then one
`per_slot_processing` step is applied. -/
def catchup_slots (parent_block : Block) (hot : List Hash256) :
    Nat → BState → List Hash256 → List Act → CatchupOut
  | 0, s, conf, tr => ⟨s, conf, tr⟩
  | Nat.succ d, s, conf, tr =>
      if parent_block.slot = s.slot then
        catchup_slots parent_block hot d
          (per_slot_processing s (some parent_block.state_root)) conf tr
      else
        let state_root := stateRoot s
        let tr' := if state_root ∈ hot then tr
                   else tr ++ [Act.stageTemporaryState state_root]
        catchup_slots parent_block hot d
          (per_slot_processing s (some state_root)) (conf ++ [state_root]) tr'

/-- The state-advancement portion of `ExecutionPendingBlock::
from_signature_verified_components` (lines 1427-1533): initialise
`confirmed_state_roots` (the advanced pre-state's root when there is a
skipped slot between parent and block), reject a block not later than its
parent, sanity-check the pre-state slot, then run the catch-up loop up to
the block's slot. -/
def advance_to_block_slot (hot : List Hash256) (parent : PreProcessingSnapshot)
    (block : Block) (block_root : Hash256) :
    Except BlockErr (BState × List Hash256 × List Act) :=
  let state := parent.pre_state
  let confirmed_state_roots :=
    if block.slot > state.slot ∧ state.slot > parent.beacon_block.slot then
      [stateRoot state]
    else
      []
  if block.slot ≤ parent.beacon_block.slot then
    Except.error (BlockErr.BlockIsNotLaterThanParent block.slot parent.beacon_block.slot)
  else if state.slot < parent.beacon_block.slot ∨ state.slot > block.slot then
    Except.error (BlockErr.BeaconChainError
      (ChainErr.BadPreState parent.beacon_block_root parent.beacon_block.slot
        block_root block.slot state.slot))
  else
    let distance := block.slot - state.slot
    let out := catchup_slots parent.beacon_block hot distance state
      confirmed_state_roots []
    Except.ok (out.state, out.confirmed, out.trace)

/-- `BlockImportData`, restricted to the fields the claims mention. -/
structure BlockImportData where
  block_root : Hash256
  state : BState
  parent_block : Block
  confirmed_state_roots : List Hash256
deriving Repr, DecidableEq

/-- `ExecutionPendingBlock` (the payload-verification handle is represented
by the `spawnPayloadVerification` trace action). -/
structure ExecutionPendingBlock where
  block : Block
  import_data : BlockImportData
deriving Repr, DecidableEq

/-- `ExecutionPendingBlock::from_signature_verified_components`
(lines 1286-1699): observe the proposal (its `SeenBlock` outcome is
discarded at this stage), require the parent in fork choice with a
non-invalid execution status, re-run the relevancy gate, spawn the payload
verification task, advance the pre-state to the block's slot (staging
intermediate states), build committee caches, run `per_block_processing`,
and compare the recomputed post-state root against the block's declared
state root.  Fork-choice registration of the block's attestations is
best-effort in the source and not modelled. -/
def from_signature_verified_components (chain : Chain) (block : Block)
    (block_root : Hash256) (parent : PreProcessingSnapshot) :
    Except BlockErr ExecutionPendingBlock × Chain × List Act :=
  let c1 := { chain with observedSlashable :=
      (observe_slashable chain.observedSlashable block.proposer_index block.slot block_root) }
  let obs := (observe_proposal c1.observedBlockProducers block_root
      block.proposer_index block.slot).2
  let c2 := { c1 with observedBlockProducers := obs }
  match c2.getBlock block.parent_root with
  | none => (Except.error BlockErr.ParentUnknown, c2, [])
  | some parent_info =>
      if parent_info.executionInvalid then
        (Except.error (BlockErr.ParentExecutionPayloadInvalid block.parent_root), c2, [])
      else
        match check_block_relevancy block block_root c2 with
        | (Except.error e, c3, tr) => (Except.error e, c3, tr)
        | (Except.ok _, c3, tr) =>
            let tr1 := tr ++ [Act.spawnPayloadVerification]
            match advance_to_block_slot c3.hotStates parent block block_root with
            | Except.error e => (Except.error e, c3, tr1)
            | Except.ok (s, confirmed, tr2) =>
                let tr3 := tr1 ++ tr2
                let s2 := build_committee_caches s
                match per_block_processing s2 block with
                | Except.error _ =>
                    (Except.error BlockErr.PerBlockProcessingError, c3, tr3)
                | Except.ok post =>
                    let state_root := stateRoot post
                    if block.state_root ≠ state_root then
                      (Except.error (BlockErr.StateRootMismatch block.state_root state_root),
                       c3, tr3)
                    else
                      (Except.ok
                        { block := block
                          import_data :=
                            { block_root := block_root
                              state := post
                              parent_block := parent.beacon_block
                              confirmed_state_roots := confirmed } },
                       c3, tr3)

/-- Proposer signature validity for one block, against the chain's
validator-pubkey cache (symbolic signature model). -/
def block_signature_valid (chain : Chain) (b : Block) : Bool :=
  match chain.pubkeys.lookup b.proposer_index with
  | some pk => b.signature = pk
  | none => false

/-- `signature_verify_chain_segment` (lines 591-656): an empty segment
returns `Ok(vec![])` immediately; otherwise the parent snapshot of the
first block is loaded, one shared committee state is derived by cheap
advancement to the segment's highest slot, and one signature batch over all
blocks is verified (`InvalidSignature` on batch failure). -/
def signature_verify_chain_segment (chain : Chain)
    (snapshots : List (Hash256 × PreProcessingSnapshot))
    (chain_segment : List (Hash256 × Block)) :
    Except BlockErr (List (Hash256 × Block)) × List Act :=
  match chain_segment with
  | [] => (Except.ok [], [])
  | (first_root, first_block) :: rest =>
      match load_parent chain snapshots first_block with
      | (Except.error e, tr) => (Except.error e, tr)
      | (Except.ok parent, tr) =>
          let slot := first_block.slot
          let highest_slot := (((first_root, first_block) :: rest).getLast?.map
            (fun p => p.2.slot)).getD slot
          match (cheap_state_advance_to_obtain_committees parent.pre_state
              parent.beacon_state_root highest_slot).1 with
          | Except.error e => (Except.error e, tr)
          | Except.ok _ =>
              let tr2 := tr ++ [Act.verifySignatureBatch]
              if ((first_root, first_block) :: rest).all
                  (fun p => block_signature_valid chain p.2) then
                (Except.ok ((first_root, first_block) :: rest), tr2)
              else
                (Except.error BlockErr.InvalidSignature, tr2)

/-! Theorems settling the claims. -/

/-- C10: `signature_verify_chain_segment` applied to an empty chain segment
returns `Ok` with an empty vector, performing no parent-snapshot load, no
store access and no signature verification (empty action trace), and cannot
fail for the empty input. -/
theorem signature_verify_chain_segment_empty (chain : Chain)
    (snapshots : List (Hash256 × PreProcessingSnapshot)) :
    signature_verify_chain_segment chain snapshots [] =
      (Except.ok [], ([] : List Act)) := rfl

/-- C7: a block at or below the finalized slot known to fork choice is
rejected with `WouldRevertFinalizedSlot` carrying the block slot and the
finalized slot, with the block root recorded as pre-finalization rejected
and no parent snapshot loaded; a block strictly beyond the finalized slot
passes with no side effect at all. -/
theorem check_block_against_finalized_slot_spec (block : Block)
    (block_root : Hash256) (chain : Chain) :
    (block.slot ≤ chain.finalizedSlot →
      check_block_against_finalized_slot block block_root chain =
        (Except.error (BlockErr.WouldRevertFinalizedSlot block.slot chain.finalizedSlot),
         pre_finalization_block_rejected chain block_root,
         [Act.recordPreFinalizationRejection block_root]) ∧
      block_root ∈
        (check_block_against_finalized_slot block block_root chain).2.1.preFinalizationRejected ∧
      ∀ r, Act.loadParentSnapshot r ∉
        (check_block_against_finalized_slot block block_root chain).2.2) ∧
    (chain.finalizedSlot < block.slot →
      check_block_against_finalized_slot block block_root chain =
        (Except.ok (), chain, [])) := by
  constructor
  · intro h
    refine ⟨?_, ?_, ?_⟩
    · simp [check_block_against_finalized_slot, h]
    · simp only [check_block_against_finalized_slot, h, if_pos]
      unfold pre_finalization_block_rejected
      split
      · assumption
      · exact List.mem_cons_self _ _
    · intro r
      simp [check_block_against_finalized_slot, h]
  · intro h
    simp [check_block_against_finalized_slot, Nat.not_le.mpr h]

/-- Concrete chain used by several witnesses: finalized epoch 1 (finalized
slot 32), current slot 200, no anchor, empty caches. -/
def chainW : Chain :=
  { currentSlot := 200
    anchorSlot := none
    finalizedEpoch := 1
    forkChoice := []
    pubkeys := [(0, 42)]
    observedSlashable := []
    observedBlockProducers := []
    hotStates := []
    preFinalizationRejected := []
    slasherEnabled := true }

/-- Concrete block at slot 5 used by the C7 witness. -/
def blockFinW : Block :=
  { slot := 5, proposer_index := 0, parent_root := 1, state_root := 2
    signature := 42, body := 0, procOk := true }

/-- C7 witness: at slot 5 against finalized slot 32 the check rejects with
`WouldRevertFinalizedSlot 5 32` and records root 7. -/
theorem check_block_against_finalized_slot_spec_witness :
    check_block_against_finalized_slot blockFinW 7 chainW =
      (Except.error (BlockErr.WouldRevertFinalizedSlot 5 32),
       pre_finalization_block_rejected chainW 7,
       [Act.recordPreFinalizationRejection 7]) :=
  ((check_block_against_finalized_slot_spec blockFinW 7 chainW).1 (by decide)).1

/-- C3 (amended): the relevancy gate `check_block_relevancy` performs
exactly these checks, in this order, short-circuiting with the
corresponding typed rejection at the first failure: (1) slot not in the
future relative to the local clock, (2) slot not exactly 0, (3) slot below
the absolute slot ceiling, (4) slot strictly greater than the finalized
slot (recording the root as pre-finalization rejected on failure), (5)
block root not already known to fork choice; a block passing all five
checks is accepted with its root returned.  The weak-subjectivity anchor
check of the spec is not part of this gate (it is a separate check,
`check_block_against_anchor_slot`, run by the gossip and signature stages
before loading the parent). -/
theorem check_block_relevancy_spec (block : Block) (block_root : Hash256)
    (chain : Chain) :
    check_block_relevancy block block_root chain =
      (if chain.currentSlot < block.slot then
        (Except.error (BlockErr.FutureSlot chain.currentSlot block.slot), chain, [])
      else if block.slot = 0 then
        (Except.error BlockErr.GenesisBlock, chain, [])
      else if MAXIMUM_BLOCK_SLOT_NUMBER ≤ block.slot then
        (Except.error BlockErr.BlockSlotLimitReached, chain, [])
      else if block.slot ≤ chain.finalizedSlot then
        (Except.error (BlockErr.WouldRevertFinalizedSlot block.slot chain.finalizedSlot),
         pre_finalization_block_rejected chain block_root,
         [Act.recordPreFinalizationRejection block_root])
      else if chain.containsBlock block_root then
        (Except.error (BlockErr.BlockIsAlreadyKnown block_root), chain, [])
      else
        (Except.ok block_root, chain, [])) := by
  unfold check_block_relevancy check_block_against_finalized_slot
  simp only [gt_iff_lt, ge_iff_le, Chain.finalizedSlot]
  split_ifs <;> simp_all

/-- Concrete chain with a configured weak-subjectivity anchor at slot 100,
used by the C3 counterexample. -/
def chainAnchor : Chain :=
  { currentSlot := 200
    anchorSlot := some 100
    finalizedEpoch := 1
    forkChoice := []
    pubkeys := []
    observedSlashable := []
    observedBlockProducers := []
    hotStates := []
    preFinalizationRejected := []
    slasherEnabled := false }

/-- Concrete block at slot 50, at or below the anchor slot 100. -/
def blockAnchor : Block :=
  { slot := 50, proposer_index := 0, parent_root := 1, state_root := 2
    signature := 0, body := 0, procOk := true }

/-- C3 counterexample: with an anchor configured at slot 100 and a block at
slot 50 (not future, not genesis, below the ceiling, beyond the finalized
slot, root unknown to fork choice), the anchor check itself would reject
with `WeakSubjectivityConflict`, yet the relevancy gate accepts the block:
the gate does not perform the claimed anchor-slot check. -/
theorem check_block_relevancy_skips_anchor_check :
    chainAnchor.anchorSlot = some 100 ∧
    blockAnchor.slot ≤ 100 ∧
    check_block_against_anchor_slot blockAnchor chainAnchor =
      Except.error BlockErr.WeakSubjectivityConflict ∧
    check_block_relevancy blockAnchor 7 chainAnchor =
      (Except.ok 7, chainAnchor, []) :=
  ⟨rfl, by decide, rfl, rfl⟩

/-- C4: `cheap_state_advance_to_obtain_committees` returns (a) a borrowed
view of the given state with committee caches built in place whenever the
state's current epoch equals the target slot's epoch; (b) the
`BlockIsNotLaterThanParent` error whenever the epochs differ and the
state's slot is greater than the target slot; (c) otherwise an owned clone
of the state partially advanced (no state-root computation) to the first
slot of the target slot's epoch, with committee caches built, leaving the
caller's state untouched. -/
theorem cheap_state_advance_to_obtain_committees_spec (state : BState)
    (state_root_opt : Option Hash256) (block_slot : Slot) :
    (state.currentEpoch = slotToEpoch block_slot →
      cheap_state_advance_to_obtain_committees state state_root_opt block_slot =
        (Except.ok (StateCow.borrowed (build_committee_caches state)),
         build_committee_caches state)) ∧
    (state.currentEpoch ≠ slotToEpoch block_slot → block_slot < state.slot →
      cheap_state_advance_to_obtain_committees state state_root_opt block_slot =
        (Except.error (BlockErr.BlockIsNotLaterThanParent block_slot state.slot),
         state)) ∧
    (state.currentEpoch ≠ slotToEpoch block_slot → state.slot ≤ block_slot →
      cheap_state_advance_to_obtain_committees state state_root_opt block_slot =
        (Except.ok (StateCow.owned (build_committee_caches
          (partial_state_advance state state_root_opt
            (epochStartSlot (slotToEpoch block_slot))))),
         state)) := by
  refine ⟨?_, ?_, ?_⟩
  · intro h
    simp [cheap_state_advance_to_obtain_committees, h]
  · intro h h'
    simp [cheap_state_advance_to_obtain_committees, h, h']
  · intro h h'
    simp [cheap_state_advance_to_obtain_committees, h, Nat.not_lt.mpr h']

/-- Concrete state at slot 8 with empty caches, used by witnesses. -/
def stateW : BState := { slot := 8, validators := 3, data := 5, cachesBuilt := [] }

/-- C4 witness: slot 8 and target slot 20 share epoch 0, so the call
returns a borrowed view with caches for epochs 0 (current) and 0-1
saturating to 0 built in place. -/
theorem cheap_state_advance_to_obtain_committees_spec_witness :
    cheap_state_advance_to_obtain_committees stateW none 20 =
      (Except.ok (StateCow.borrowed (build_committee_caches stateW)),
       build_committee_caches stateW) :=
  (cheap_state_advance_to_obtain_committees_spec stateW none 20).1 (by decide)


/-- C5: `cheap_state_advance_to_obtain_committees` never mutates the
caller's state beyond building committee caches: in the borrowed, owned
and error cases alike, the slot (hence the epoch) and the validator/state
data of the caller-visible state after the call are those of the input
state. -/
theorem cheap_state_advance_to_obtain_committees_frame (state : BState)
    (state_root_opt : Option Hash256) (block_slot : Slot) :
    ((cheap_state_advance_to_obtain_committees state state_root_opt block_slot).2.slot
        = state.slot ∧
     (cheap_state_advance_to_obtain_committees state state_root_opt block_slot).2.validators
        = state.validators ∧
     (cheap_state_advance_to_obtain_committees state state_root_opt block_slot).2.data
        = state.data) := by
  unfold cheap_state_advance_to_obtain_committees
  by_cases h1 : state.currentEpoch = slotToEpoch block_slot
  · simp [h1, build_committee_caches]
  · by_cases h2 : state.slot > block_slot
    · simp [h1, h2]
    · simp [h1, h2]

/-- Helper: the field-by-field effect of recording a pre-finalization
rejection: only the bookkeeping list changes. -/
theorem pre_finalization_block_rejected_fields (c : Chain) (r : Hash256) :
    (pre_finalization_block_rejected c r).currentSlot = c.currentSlot ∧
    (pre_finalization_block_rejected c r).finalizedEpoch = c.finalizedEpoch ∧
    (pre_finalization_block_rejected c r).forkChoice = c.forkChoice := by
  unfold pre_finalization_block_rejected
  split <;> simp

/-- Helper: recording the same pre-finalization rejection twice is a no-op
the second time. -/
theorem pre_finalization_block_rejected_idem (c : Chain) (r : Hash256) :
    pre_finalization_block_rejected (pre_finalization_block_rejected c r) r =
      pre_finalization_block_rejected c r := by
  unfold pre_finalization_block_rejected
  by_cases h : r ∈ c.preFinalizationRejected
  · simp [h]
  · simp [h]

/-- Helper: case characterization of the relevancy gate, shared by the
idempotence proof. -/
theorem check_block_relevancy_cases (block : Block) (block_root : Hash256)
    (chain : Chain) :
    check_block_relevancy block block_root chain =
      (if chain.currentSlot < block.slot then
        (Except.error (BlockErr.FutureSlot chain.currentSlot block.slot), chain, [])
      else if block.slot = 0 then
        (Except.error BlockErr.GenesisBlock, chain, [])
      else if MAXIMUM_BLOCK_SLOT_NUMBER ≤ block.slot then
        (Except.error BlockErr.BlockSlotLimitReached, chain, [])
      else if block.slot ≤ chain.finalizedSlot then
        (Except.error (BlockErr.WouldRevertFinalizedSlot block.slot chain.finalizedSlot),
         pre_finalization_block_rejected chain block_root,
         [Act.recordPreFinalizationRejection block_root])
      else if chain.containsBlock block_root then
        (Except.error (BlockErr.BlockIsAlreadyKnown block_root), chain, [])
      else
        (Except.ok block_root, chain, [])) := by
  unfold check_block_relevancy check_block_against_finalized_slot
  simp only [gt_iff_lt, ge_iff_le, Chain.finalizedSlot]
  split_ifs <;> simp_all

/-- C9: the relevancy gate is deterministic and idempotent: calling it a
second time on the same block and root, against the chain state left by
the first call, yields the same classification, and the second call leaves
the chain state unchanged whenever the first call already rejected. -/
theorem check_block_relevancy_idempotent (block : Block) (block_root : Hash256)
    (chain : Chain) :
    ((check_block_relevancy block block_root
        (check_block_relevancy block block_root chain).2.1).1 =
      (check_block_relevancy block block_root chain).1) ∧
    ((check_block_relevancy block block_root chain).1.isOk = false →
      (check_block_relevancy block block_root
        (check_block_relevancy block block_root chain).2.1).2.1 =
      (check_block_relevancy block block_root chain).2.1) := by
  obtain ⟨hcs, hfe, hfc⟩ :=
    pre_finalization_block_rejected_fields chain block_root
  have hc := check_block_relevancy_cases block block_root chain
  by_cases h1 : chain.currentSlot < block.slot
  · have e1 : check_block_relevancy block block_root chain =
        (Except.error (BlockErr.FutureSlot chain.currentSlot block.slot), chain, []) := by
      rw [hc]; simp [h1]
    rw [e1]; simp [e1, Except.isOk]
  · by_cases h2 : block.slot = 0
    · have e1 : check_block_relevancy block block_root chain =
          (Except.error BlockErr.GenesisBlock, chain, []) := by
        rw [hc]; simp [h1, h2]
      rw [e1]; simp [e1, Except.isOk]
    · by_cases h3 : MAXIMUM_BLOCK_SLOT_NUMBER ≤ block.slot
      · have e1 : check_block_relevancy block block_root chain =
            (Except.error BlockErr.BlockSlotLimitReached, chain, []) := by
          rw [hc]; simp [h1, h2, h3]
        rw [e1]; simp [e1, Except.isOk]
      · by_cases h4 : block.slot ≤ chain.finalizedSlot
        · have e1 : check_block_relevancy block block_root chain =
              (Except.error
                 (BlockErr.WouldRevertFinalizedSlot block.slot chain.finalizedSlot),
               pre_finalization_block_rejected chain block_root,
               [Act.recordPreFinalizationRejection block_root]) := by
            rw [hc]; simp [h1, h2, h3, h4]
          have hfs : (pre_finalization_block_rejected chain block_root).finalizedSlot
              = chain.finalizedSlot := by
            unfold Chain.finalizedSlot; rw [hfe]
          have e2 : check_block_relevancy block block_root
              (pre_finalization_block_rejected chain block_root) =
              (Except.error
                 (BlockErr.WouldRevertFinalizedSlot block.slot chain.finalizedSlot),
               pre_finalization_block_rejected chain block_root,
               [Act.recordPreFinalizationRejection block_root]) := by
            rw [check_block_relevancy_cases]
            rw [hcs, hfs, pre_finalization_block_rejected_idem]
            simp [h1, h2, h3, h4]
          rw [e1]; simp [e2, Except.isOk]
        · by_cases h5 : chain.containsBlock block_root
          · have e1 : check_block_relevancy block block_root chain =
                (Except.error (BlockErr.BlockIsAlreadyKnown block_root), chain, []) := by
              rw [hc]; simp [h1, h2, h3, h4, h5]
            rw [e1]; simp [e1, Except.isOk]
          · have e1 : check_block_relevancy block block_root chain =
                (Except.ok block_root, chain, []) := by
              rw [hc]; simp [h1, h2, h3, h4, h5]
            rw [e1]; simp [e1, Except.isOk]

/-- C6: the early-error classifier maps `ProposalSignatureInvalid` to
`SignatureInvalid` (discarding the header) and every other error to
`SignatureNotChecked` carrying the header; with a slasher configured,
`process_block_slash_info` forwards the header exactly when the
classification is `SignatureValid`, or is `SignatureNotChecked` and the
independent header-only signature check succeeds — a header whose
independent check fails is never forwarded — and in all cases the original
error is returned unchanged. -/
theorem slash_info_classification (header : SignedBlockHeader) (e : BlockErr)
    (chain : Chain) (hs : chain.slasherEnabled = true) :
    (from_early_error_block header e =
      if e = BlockErr.ProposalSignatureInvalid then BlockSlashInfo.SignatureInvalid e
      else BlockSlashInfo.SignatureNotChecked header e) ∧
    (process_block_slash_info chain (BlockSlashInfo.SignatureValid header e) =
      (e, [Act.slasherAcceptHeader header])) ∧
    (process_block_slash_info chain (BlockSlashInfo.SignatureInvalid e) = (e, [])) ∧
    (process_block_slash_info chain (BlockSlashInfo.SignatureNotChecked header e) =
      (e, if (verify_header_signature chain header).isOk then
            [Act.slasherAcceptHeader header]
          else [])) := by
  refine ⟨?_, ?_, ?_, ?_⟩
  · cases e <;> simp [from_early_error_block]
  · simp [process_block_slash_info, hs]
  · simp [process_block_slash_info, hs]
  · simp only [process_block_slash_info, hs, if_true]
    cases hv : verify_header_signature chain header <;>
      simp [Except.isOk, Except.toBool, hv]

/-- Concrete header whose proposer 0 signed with the registered key 42. -/
def headerW : SignedBlockHeader :=
  { slot := 5, proposer_index := 0, parent_root := 1, state_root := 2
    signature := 42 }

/-- C6 witness: `GenesisBlock` classifies as signature-not-checked, and the
header (independently verifiable against `chainW`'s pubkey cache) is
forwarded while the error is returned unchanged. -/
theorem slash_info_classification_witness :
    from_early_error_block headerW BlockErr.GenesisBlock =
      BlockSlashInfo.SignatureNotChecked headerW BlockErr.GenesisBlock ∧
    process_block_slash_info chainW
        (BlockSlashInfo.SignatureNotChecked headerW BlockErr.GenesisBlock) =
      (BlockErr.GenesisBlock, [Act.slasherAcceptHeader headerW]) := by
  have h := slash_info_classification headerW BlockErr.GenesisBlock chainW rfl
  exact ⟨by rw [h.1]; rfl, by rw [h.2.2.2]; rfl⟩


/-- C2: the gossip-stage equivocation check over the observed-block-producers
set: a proposal whose (proposer, slot) was never observed is accepted and
recorded; after that, a distinct block (different root) from the same
(proposer, slot) is rejected as `Slashable`, and re-submitting the exact
same block (same root) is rejected as `BlockIsAlreadyKnown` — so two
distinct blocks from one (proposer, slot) are never both accepted. -/
theorem gossip_observe_equivocation (chain : Chain) (b1 b2 : Block)
    (r1 r2 : Hash256)
    (hfresh : ∀ x ∈ chain.observedBlockProducers,
      ¬(x.1 = b1.proposer_index ∧ x.2.1 = b1.slot))
    (hp : b2.proposer_index = b1.proposer_index) (hsl : b2.slot = b1.slot)
    (hr : r2 ≠ r1) :
    (gossip_observe_proposal chain b1 r1).1 = Except.ok () ∧
    (gossip_observe_proposal (gossip_observe_proposal chain b1 r1).2 b2 r2).1 =
      Except.error BlockErr.Slashable ∧
    (gossip_observe_proposal (gossip_observe_proposal chain b1 r1).2 b1 r1).1 =
      Except.error (BlockErr.BlockIsAlreadyKnown r1) := by
  have hnm : (b1.proposer_index, b1.slot, r1) ∉ chain.observedBlockProducers := by
    intro hmem
    exact hfresh _ hmem ⟨rfl, rfl⟩
  have hany0 : chain.observedBlockProducers.any
      (fun e => e.1 == b1.proposer_index && e.2.1 == b1.slot) = false := by
    rw [List.any_eq_false]
    intro x hx
    have := hfresh x hx
    simp only [Bool.and_eq_true, beq_iff_eq]
    tauto
  have hany : chain.observedBlockProducers.any
      (fun e => e.1 == b1.proposer_index && e.2.1 == b1.slot) ≠ true := by
    simp [hany0]
  have e1 : gossip_observe_proposal chain b1 r1 =
      (Except.ok (),
       { chain with
          observedSlashable := (observe_slashable chain.observedSlashable
            b1.proposer_index b1.slot r1)
          observedBlockProducers :=
            (b1.proposer_index, b1.slot, r1) :: chain.observedBlockProducers }) := by
    simp only [gossip_observe_proposal, observe_proposal]
    rw [if_neg hnm, if_neg hany]
  have hnm2 : (b2.proposer_index, b2.slot, r2) ∉
      (b1.proposer_index, b1.slot, r1) :: chain.observedBlockProducers := by
    intro hmem
    rcases List.mem_cons.mp hmem with h | h
    · rw [hp, hsl] at h
      exact hr (by simpa using congrArg (fun t => t.2.2) h)
    · exact hfresh _ h ⟨hp, hsl⟩
  have hany2 : ((b1.proposer_index, b1.slot, r1) ::
      chain.observedBlockProducers).any
      (fun e => e.1 == b2.proposer_index && e.2.1 == b2.slot) = true := by
    simp only [List.any_cons, Bool.or_eq_true, Bool.and_eq_true, beq_iff_eq]
    exact Or.inl ⟨hp.symm, hsl.symm⟩
  have hmem1 : (b1.proposer_index, b1.slot, r1) ∈
      (b1.proposer_index, b1.slot, r1) :: chain.observedBlockProducers :=
    List.mem_cons_self _ _
  refine ⟨by rw [e1], ?_, ?_⟩
  · rw [e1]
    simp only [gossip_observe_proposal, observe_proposal]
    rw [if_neg hnm2, if_pos hany2]
  · rw [e1]
    simp only [gossip_observe_proposal, observe_proposal]
    rw [if_pos hmem1]

/-- Concrete block from proposer 3 at slot 40. -/
def blockB1 : Block :=
  { slot := 40, proposer_index := 3, parent_root := 1, state_root := 2
    signature := 0, body := 0, procOk := true }

/-- Concrete distinct block from the same proposer 3 at the same slot 40. -/
def blockB2 : Block :=
  { slot := 40, proposer_index := 3, parent_root := 1, state_root := 9
    signature := 0, body := 1, procOk := true }

/-- C2 witness: with nothing yet observed, proposer 3's block with root 11
is accepted; then its sibling with root 12 is `Slashable` and an exact
repeat of root 11 is `BlockIsAlreadyKnown`. -/
theorem gossip_observe_equivocation_witness :
    (gossip_observe_proposal chainW blockB1 11).1 = Except.ok () ∧
    (gossip_observe_proposal (gossip_observe_proposal chainW blockB1 11).2
        blockB2 12).1 = Except.error BlockErr.Slashable ∧
    (gossip_observe_proposal (gossip_observe_proposal chainW blockB1 11).2
        blockB1 11).1 = Except.error (BlockErr.BlockIsAlreadyKnown 11) :=
  gossip_observe_equivocation chainW blockB1 blockB2 11 12
    (by simp [chainW]) rfl rfl (by decide)

/-- Helper: base-case equation of the catch-up loop. -/
theorem catchup_slots_zero (pb : Block) (hot : List Hash256) (s : BState)
    (conf : List Hash256) (tr : List Act) :
    catchup_slots pb hot 0 s conf tr = ⟨s, conf, tr⟩ := rfl

/-- Helper: step equation of the catch-up loop. -/
theorem catchup_slots_succ (pb : Block) (hot : List Hash256) (d : Nat)
    (s : BState) (conf : List Hash256) (tr : List Act) :
    catchup_slots pb hot (d + 1) s conf tr =
      (if pb.slot = s.slot then
        catchup_slots pb hot d (per_slot_processing s (some pb.state_root)) conf tr
      else
        catchup_slots pb hot d (per_slot_processing s (some (stateRoot s)))
          (conf ++ [stateRoot s])
          (if stateRoot s ∈ hot then tr else tr ++ [Act.stageTemporaryState (stateRoot s)])) := by
  rw [catchup_slots]

/-- C8: for a block at slot 10 whose parent block is at slot 8 with the
pre-state still at slot 8, the catch-up stage applies per-slot processing
through the skipped slot 9, staging exactly the slot-9 state as temporary
(one `stageTemporaryState` action) with its root as the only entry of
`confirmed_state_roots`, and hands over the slot-10 state for the block's
own processing. -/
theorem catchup_single_skip_slot (hot : List Hash256)
    (parent : PreProcessingSnapshot) (block : Block) (block_root : Hash256)
    (hp : parent.beacon_block.slot = 8) (hs : parent.pre_state.slot = 8)
    (hb : block.slot = 10)
    (hfresh : stateRoot (per_slot_processing parent.pre_state
        (some parent.beacon_block.state_root)) ∉ hot) :
    (per_slot_processing parent.pre_state
        (some parent.beacon_block.state_root)).slot = 9 ∧
    advance_to_block_slot hot parent block block_root =
      Except.ok
        (per_slot_processing
           (per_slot_processing parent.pre_state (some parent.beacon_block.state_root))
           (some (stateRoot (per_slot_processing parent.pre_state
              (some parent.beacon_block.state_root)))),
         [stateRoot (per_slot_processing parent.pre_state
            (some parent.beacon_block.state_root))],
         [Act.stageTemporaryState (stateRoot (per_slot_processing parent.pre_state
            (some parent.beacon_block.state_root)))]) ∧
    (per_slot_processing
       (per_slot_processing parent.pre_state (some parent.beacon_block.state_root))
       (some (stateRoot (per_slot_processing parent.pre_state
          (some parent.beacon_block.state_root))))).slot = 10 := by
  refine ⟨by simp [per_slot_processing, hs], ?_, by simp [per_slot_processing, hs]⟩
  simp only [advance_to_block_slot]
  rw [hp, hs, hb]
  norm_num
  rw [show (2 : Nat) = 1 + 1 from rfl]
  rw [catchup_slots_succ,
    if_pos (show parent.beacon_block.slot = parent.pre_state.slot by rw [hp, hs])]
  rw [catchup_slots_succ,
    if_neg (show ¬ parent.beacon_block.slot =
      (per_slot_processing parent.pre_state (some parent.beacon_block.state_root)).slot by
        simp [per_slot_processing, hp, hs]),
    if_neg hfresh]
  rw [catchup_slots_zero]
  simp

/-- Concrete parent snapshot at slot 8 with an unadvanced pre-state. -/
def parentSkip : PreProcessingSnapshot :=
  { beacon_block :=
      { slot := 8, proposer_index := 0, parent_root := 0, state_root := 4
        signature := 0, body := 0, procOk := true }
    beacon_block_root := 1
    pre_state := { slot := 8, validators := 0, data := 0, cachesBuilt := [] }
    beacon_state_root := some 4 }

/-- Concrete block at slot 10 whose parent is `parentSkip`. -/
def blockSkip : Block :=
  { slot := 10, proposer_index := 0, parent_root := 1, state_root := 2
    signature := 0, body := 0, procOk := true }

/-- C8 witness: for the slot-10 block over the slot-8 parent, the catch-up
stage stages exactly the slot-9 state, whose root is the only confirmed
state root. -/
theorem catchup_single_skip_slot_witness :
    advance_to_block_slot [] parentSkip blockSkip 9 =
      Except.ok
        (per_slot_processing
           (per_slot_processing parentSkip.pre_state
              (some parentSkip.beacon_block.state_root))
           (some (stateRoot (per_slot_processing parentSkip.pre_state
              (some parentSkip.beacon_block.state_root)))),
         [stateRoot (per_slot_processing parentSkip.pre_state
            (some parentSkip.beacon_block.state_root))],
         [Act.stageTemporaryState (stateRoot (per_slot_processing parentSkip.pre_state
            (some parentSkip.beacon_block.state_root)))]) :=
  (catchup_single_skip_slot [] parentSkip blockSkip 9 rfl rfl rfl (by simp)).2.1

/-- C1: in the final verification stage, once the observation, parent,
relevancy, catch-up and per-block-processing steps have gone through, the
recomputed post-state root is compared against the block's declared state
root: a differing declared root is rejected with `StateRootMismatch`
carrying both roots, and an equal declared root produces the
`ExecutionPendingBlock` bundling the post state and confirmed state
roots. -/
theorem state_root_roundtrip (chain : Chain) (block : Block)
    (block_root : Hash256) (parent : PreProcessingSnapshot)
    (info : ProtoBlockInfo) (s post : BState) (confirmed : List Hash256)
    (tr2 : List Act)
    (hfc : chain.getBlock block.parent_root = some info)
    (hvalid : info.executionInvalid = false)
    (h1 : ¬ chain.currentSlot < block.slot)
    (h2 : block.slot ≠ 0)
    (h3 : ¬ MAXIMUM_BLOCK_SLOT_NUMBER ≤ block.slot)
    (h4 : ¬ block.slot ≤ chain.finalizedSlot)
    (h5 : chain.containsBlock block_root = false)
    (hadv : advance_to_block_slot chain.hotStates parent block block_root =
      Except.ok (s, confirmed, tr2))
    (hpbp : per_block_processing (build_committee_caches s) block =
      Except.ok post) :
    (block.state_root ≠ stateRoot post →
      (from_signature_verified_components chain block block_root parent).1 =
        Except.error (BlockErr.StateRootMismatch block.state_root (stateRoot post))) ∧
    (block.state_root = stateRoot post →
      (from_signature_verified_components chain block block_root parent).1 =
        Except.ok
          { block := block
            import_data :=
              { block_root := block_root
                state := post
                parent_block := parent.beacon_block
                confirmed_state_roots := confirmed } }) := by
  simp only [from_signature_verified_components]
  have hfc2 : List.lookup block.parent_root chain.forkChoice = some info := hfc
  simp only [Chain.getBlock, hfc2, hvalid]
  rw [check_block_relevancy_cases]
  simp only [Chain.finalizedSlot, Chain.containsBlock] at h4 h5 ⊢
  simp only [h1, h2, h3, h4, h5, if_false, ite_false, Bool.false_eq_true,
    not_false_eq_true]
  simp only [hadv, hpbp]
  constructor
  · intro hne
    rw [if_pos hne]
  · intro heq
    rw [if_neg (by simp [heq])]

/-- Concrete chain for the C1 witness: parent root 1 known to fork choice
with a valid execution status. -/
def chainC1 : Chain :=
  { currentSlot := 5
    anchorSlot := none
    finalizedEpoch := 0
    forkChoice := [(1, { executionInvalid := false })]
    pubkeys := []
    observedSlashable := []
    observedBlockProducers := []
    hotStates := []
    preFinalizationRejected := []
    slasherEnabled := false }

/-- Concrete parent snapshot at slot 1 for the C1 witness. -/
def parentC1 : PreProcessingSnapshot :=
  { beacon_block :=
      { slot := 1, proposer_index := 0, parent_root := 0, state_root := 4
        signature := 0, body := 0, procOk := true }
    beacon_block_root := 1
    pre_state := { slot := 1, validators := 0, data := 0, cachesBuilt := [] }
    beacon_state_root := some 4 }

/-- Concrete block at slot 2 whose declared state root 6 is the correct
recomputed post-state root. -/
def blockMatch : Block :=
  { slot := 2, proposer_index := 0, parent_root := 1, state_root := 6
    signature := 0, body := 0, procOk := true }

/-- The same block with a corrupted declared state root 0. -/
def blockMismatch : Block :=
  { slot := 2, proposer_index := 0, parent_root := 1, state_root := 0
    signature := 0, body := 0, procOk := true }

/-- C1 witness: the corrupted-root block is rejected with
`StateRootMismatch 0 6`, and the correct-root block reaches
`ExecutionPendingBlock`. -/
theorem state_root_roundtrip_witness :
    (from_signature_verified_components chainC1 blockMismatch 9 parentC1).1 =
      Except.error (BlockErr.StateRootMismatch 0 6) ∧
    (from_signature_verified_components chainC1 blockMatch 9 parentC1).1 =
      Except.ok
        { block := blockMatch
          import_data :=
            { block_root := 9
              state := { slot := 2, validators := 0, data := 0, cachesBuilt := [0] }
              parent_block := parentC1.beacon_block
              confirmed_state_roots := [] } } :=
  ⟨(state_root_roundtrip chainC1 blockMismatch 9 parentC1
      { executionInvalid := false }
      { slot := 2, validators := 0, data := 0, cachesBuilt := [] }
      { slot := 2, validators := 0, data := 0, cachesBuilt := [0] }
      [] [] rfl rfl (by decide) (by decide) (by decide) (by decide) rfl rfl rfl).1
      (by decide),
   (state_root_roundtrip chainC1 blockMatch 9 parentC1
      { executionInvalid := false }
      { slot := 2, validators := 0, data := 0, cachesBuilt := [] }
      { slot := 2, validators := 0, data := 0, cachesBuilt := [0] }
      [] [] rfl rfl (by decide) (by decide) (by decide) (by decide) rfl rfl rfl).2
      (by decide)⟩

/-- C9 witness: for the slot-5 block rejected against finalized slot 32,
the second relevancy call leaves the chain state of the first call
unchanged. -/
theorem check_block_relevancy_idempotent_witness :
    (check_block_relevancy blockFinW 7
        (check_block_relevancy blockFinW 7 chainW).2.1).2.1 =
      (check_block_relevancy blockFinW 7 chainW).2.1 :=
  (check_block_relevancy_idempotent blockFinW 7 chainW).2 (by rfl)
